import Mathlib

/-!
Verification development for the polyurethane injection-parameter calculator
(`polyurethane_calculator.py`).

The program has two independent pure components:
* `PolyurethaneCalculator.calculate`: a fluid-dynamics pipeline taking six
  scalar inputs (validated first) and producing pressures, shear rate,
  apparent viscosity, Reynolds number, a 20-point pressure profile, a flow
  regime string and a list of warnings;
* `calculate_environmental_impact`: a lookup-based comparison of blowing
  agents against the fixed "Ecomate" baseline.

Modelling conventions: the six input parameters and the blowing-agent table
are rational numbers (Python float literals denote their exact decimal
values); the pipeline's intermediate quantities live in `ℝ` because they
involve `π`, `Real.exp` and real exponentiation.  Python's `round(x, n)` is
modelled by round-to-nearest at `n` decimals (`roundq2`, `round1`, `round2`,
`round4`); `raise ValidationError(msg)` / `KeyError` are modelled by
`Except.error msg` / `Option.none`.  A pressure-profile entry
`{"distance": d, "pressure": p}` is modelled as the pair `(d, p)`.
-/

namespace PuCalc

/-- Python `round(x, 2)` on rationals: round to nearest at two decimals. -/
def roundq2 (x : ℚ) : ℚ := ((round (x * 100) : ℤ) : ℚ) / 100

/-- Python `round(x, 1)` on reals: round to nearest at one decimal. -/
noncomputable def round1 (x : ℝ) : ℝ := ((round (x * 10) : ℤ) : ℝ) / 10

/-- Python `round(x, 2)` on reals: round to nearest at two decimals. -/
noncomputable def round2 (x : ℝ) : ℝ := ((round (x * 100) : ℤ) : ℝ) / 100

/-- Python `round(x, 4)` on reals: round to nearest at four decimals. -/
noncomputable def round4 (x : ℝ) : ℝ := ((round (x * 10000) : ℤ) : ℝ) / 10000

/-- The `ProcessParameters` dataclass: the six scalar inputs of the pipeline. -/
structure ProcessParameters where
  pipe_length : ℚ
  pipe_thickness : ℚ
  temperature : ℚ
  flow_rate : ℚ
  viscosity : ℚ
  density : ℚ
deriving DecidableEq

/-- Model of `ProcessParameters.validate`: the if-chain of constraint checks, in
source order; the first violated constraint raises `ValidationError` with a
field-specific message, modelled as `Except.error`. -/
def validate (p : ProcessParameters) : Except String Unit :=
  if p.pipe_length < 50 then .error "Pipe length must be at least 50mm"
  else if p.pipe_thickness ≤ 0 then .error "Pipe thickness must be positive"
  else if ¬ (5 ≤ p.temperature ∧ p.temperature ≤ 40) then
    .error "Temperature must be between 5°C and 40°C"
  else if p.flow_rate ≤ 0 then .error "Flow rate must be positive"
  else if p.viscosity ≤ 0 then .error "Viscosity must be positive"
  else if p.density ≤ 0 then .error "Density must be positive"
  else .ok ()

/-- The conjunction of the six constraints from the spec's constraint table
(§3); `validate` succeeds exactly on parameters satisfying it. -/
def Valid (p : ProcessParameters) : Prop :=
  50 ≤ p.pipe_length ∧ 0 < p.pipe_thickness ∧
    (5 ≤ p.temperature ∧ p.temperature ≤ 40) ∧
    0 < p.flow_rate ∧ 0 < p.viscosity ∧ 0 < p.density

instance (p : ProcessParameters) : Decidable (Valid p) := by
  unfold Valid; infer_instance

/-- One row of the `blowing_agent_data` table. -/
structure BlowingAgent where
  gwp : ℚ
  odp : ℚ
  lambda : ℚ
  cost : ℚ
deriving DecidableEq

/-- Row `blowing_agent_data["HFC"]`. -/
def hfcAgent : BlowingAgent := { gwp := 1430, odp := 0, lambda := 0.022, cost := 4.50 }

/-- Row `blowing_agent_data["HCFC"]`. -/
def hcfcAgent : BlowingAgent := { gwp := 725, odp := 0.07, lambda := 0.023, cost := 4.20 }

/-- Row `blowing_agent_data["Pentane"]`. -/
def pentaneAgent : BlowingAgent := { gwp := 5, odp := 0, lambda := 0.024, cost := 3.80 }

/-- Row `blowing_agent_data["HFO"]`. -/
def hfoAgent : BlowingAgent := { gwp := 1, odp := 0, lambda := 0.022, cost := 5.20 }

/-- Row `blowing_agent_data["Ecomate"]`, the fixed comparison baseline. -/
def ecomateAgent : BlowingAgent := { gwp := 0, odp := 0, lambda := 0.019, cost := 3.95 }

/-- The `blowing_agent_data` dict as a keyed lookup; an absent key is
`none` (Python raises `KeyError`). -/
def blowing_agent_data (agent_type : String) : Option BlowingAgent :=
  if agent_type = "HFC" then some hfcAgent
  else if agent_type = "HCFC" then some hcfcAgent
  else if agent_type = "Pentane" then some pentaneAgent
  else if agent_type = "HFO" then some hfoAgent
  else if agent_type = "Ecomate" then some ecomateAgent
  else none

/-- The result dict of `calculate_environmental_impact`. -/
structure EnvironmentalImpactResult where
  co2_reduction : ℚ
  thermal_improvement : ℚ
  cost_savings : ℚ
  odp_reduction : ℚ
deriving DecidableEq

/-- Model of `calculate_environmental_impact`: looks the agent up in
`blowing_agent_data` (an unknown key fails, as the Python dict access
raises `KeyError`) and compares it to the "Ecomate" row; `co2_reduction`,
`thermal_improvement` and `cost_savings` are rounded to two decimals,
`odp_reduction` is not rounded.  The function is pure, so repeated calls
with the same arguments agree definitionally. -/
def calculate_environmental_impact (agent_type : String) (annual_consumption : ℚ) :
    Option EnvironmentalImpactResult :=
  match blowing_agent_data agent_type with
  | none => none
  | some current_agent =>
    let ecomate := ecomateAgent
    let co2_reduction := current_agent.gwp * annual_consumption / 1000
    let thermal_improvement :=
      (current_agent.lambda - ecomate.lambda) / current_agent.lambda * 100
    let cost_savings := (current_agent.cost - ecomate.cost) * annual_consumption
    some {
      co2_reduction := roundq2 co2_reduction
      thermal_improvement := roundq2 thermal_improvement
      cost_savings := roundq2 cost_savings
      odp_reduction := current_agent.odp * annual_consumption }

/-! The fluid-dynamics pipeline (`PolyurethaneCalculator`).  The three
physical constants are fields of a stateless object in the source; they are
plain constants here. -/

/-- Constant `self.activation_energy` (J/mol). -/
noncomputable def activation_energy : ℝ := 50000.0

/-- Constant `self.gas_constant` (J/(mol·K)). -/
noncomputable def gas_constant : ℝ := 8.314

/-- Constant `self.power_law_index` (dimensionless). -/
noncomputable def power_law_index : ℝ := 0.85

/-- Model of `_convert_to_kelvin`. -/
noncomputable def convert_to_kelvin (temp_celsius : ℝ) : ℝ := temp_celsius + 273.15

/-- Model of `_calculate_shear_rate`: `4·flow_rate / (π · radius³)`. -/
noncomputable def calculate_shear_rate (flow_rate radius : ℝ) : ℝ :=
  (4 * flow_rate) / (Real.pi * radius ^ 3)

/-- Model of `_calculate_temperature_factor`: Arrhenius correction relative to the
25 °C reference. -/
noncomputable def calculate_temperature_factor (temperature : ℝ) : ℝ :=
  Real.exp ((activation_energy / gas_constant) *
    (1 / convert_to_kelvin temperature - 1 / convert_to_kelvin 25.0))

/-- Model of `_calculate_apparent_viscosity`: cP→Pa·s conversion, temperature factor
and the Power-Law shear factor `shear_rate^(n−1)` (real exponent). -/
noncomputable def calculate_apparent_viscosity
    (initial_viscosity temperature shear_rate : ℝ) : ℝ :=
  (initial_viscosity * 0.001) * calculate_temperature_factor temperature *
    shear_rate ^ (power_law_index - 1)

/-- Model of `_calculate_reynolds_number`. -/
noncomputable def calculate_reynolds_number
    (flow_rate radius viscosity density : ℝ) : ℝ :=
  (2 * radius * (flow_rate / (Real.pi * radius ^ 2)) * density) / viscosity

/-- Model of `_calculate_pressure_drop`: modified Hagen–Poiseuille for a Power-Law
fluid (result in Pa). -/
noncomputable def calculate_pressure_drop
    (viscosity flow_rate length radius : ℝ) : ℝ :=
  ((8 * viscosity * length * flow_rate) / (Real.pi * radius ^ 4)) *
    ((3 * power_law_index + 1) / (4 * power_law_index))

/-- Model of `_generate_pressure_profile`: `num_points` equally spaced points with
linearly decaying pressure; distance rounded to 1 decimal, pressure to 2.
A point is the pair (distance, pressure). -/
noncomputable def generate_pressure_profile
    (total_pressure : ℝ) (num_points : ℕ) (length : ℝ) : List (ℝ × ℝ) :=
  (List.range num_points).map fun (i : ℕ) =>
    let distance := ((i : ℝ) * length) / ((num_points : ℝ) - 1)
    let relative_position := distance / length
    let pressure := total_pressure * (1 - relative_position)
    (round1 distance, round2 pressure)

/-- Model of `_generate_warnings`: the three threshold rules, appended in source
order. -/
noncomputable def generate_warnings (reynolds shear_rate viscosity : ℝ) : List String :=
  (if reynolds > 2300 then
    ["Flow is turbulent (Re > 2300) - consider reducing flow rate"] else [])
  ++ (if shear_rate > 1000 then
    ["High shear rate may affect material properties"] else [])
  ++ (if viscosity > 1.0 then
    ["High viscosity may require increased pressure"] else [])

/-- The flow-regime conditional of `calculate`:
`"laminar" if reynolds_number < 2300 else "turbulent"`. -/
noncomputable def flow_regime_of (reynolds_number : ℝ) : String :=
  if reynolds_number < 2300 then "laminar" else "turbulent"

/-- Conversion `radius = params.pipe_thickness / 2000` (mm to m). -/
noncomputable def radius_m (p : ProcessParameters) : ℝ :=
  (p.pipe_thickness : ℝ) / 2000

/-- Conversion `length = params.pipe_length / 1000` (mm to m). -/
noncomputable def length_m (p : ProcessParameters) : ℝ :=
  (p.pipe_length : ℝ) / 1000

/-- Conversion `density_kg_m3 = params.density * 1000` (g/cm³ to kg/m³). -/
noncomputable def density_kg_m3 (p : ProcessParameters) : ℝ :=
  (p.density : ℝ) * 1000

/-- The pipeline's `shear_rate` local variable. -/
noncomputable def shear_rate_of (p : ProcessParameters) : ℝ :=
  calculate_shear_rate (p.flow_rate : ℝ) (radius_m p)

/-- The pipeline's `apparent_viscosity` local variable. -/
noncomputable def apparent_viscosity_of (p : ProcessParameters) : ℝ :=
  calculate_apparent_viscosity (p.viscosity : ℝ) (p.temperature : ℝ) (shear_rate_of p)

/-- The pipeline's `reynolds_number` local variable (unrounded). -/
noncomputable def reynolds_of (p : ProcessParameters) : ℝ :=
  calculate_reynolds_number (p.flow_rate : ℝ) (radius_m p)
    (apparent_viscosity_of p) (density_kg_m3 p)

/-- The pipeline's `pressure_drop_kpa` local variable (Pa value / 1000). -/
noncomputable def pressure_drop_kpa_of (p : ProcessParameters) : ℝ :=
  calculate_pressure_drop (apparent_viscosity_of p) (p.flow_rate : ℝ)
    (length_m p) (radius_m p) / 1000

/-- The pipeline's `injection_time` local variable:
`pipe_volume / flow_rate` with `pipe_volume = π·radius²·length`. -/
noncomputable def injection_time_of (p : ProcessParameters) : ℝ :=
  (Real.pi * radius_m p ^ 2 * length_m p) / (p.flow_rate : ℝ)

/-- The results dict of `calculate`. -/
structure CalculationResult where
  required_pressure : ℝ
  shear_rate : ℝ
  apparent_viscosity : ℝ
  reynolds_number : ℝ
  optimal_injection_time : ℝ
  pressure_profile : List (ℝ × ℝ)
  flow_regime : String
  warnings : List String

/-- The body of `calculate` after successful validation: derived quantities,
display rounding, profile, regime and warnings. -/
noncomputable def calcResult (p : ProcessParameters) : CalculationResult :=
  { required_pressure := round2 (pressure_drop_kpa_of p)
    shear_rate := round2 (shear_rate_of p)
    apparent_viscosity := round4 (apparent_viscosity_of p)
    reynolds_number := round2 (reynolds_of p)
    optimal_injection_time := round2 (injection_time_of p)
    pressure_profile :=
      generate_pressure_profile (pressure_drop_kpa_of p) 20 (p.pipe_length : ℝ)
    flow_regime := flow_regime_of (reynolds_of p)
    warnings :=
      generate_warnings (reynolds_of p) (shear_rate_of p) (apparent_viscosity_of p) }

/-- Model of `PolyurethaneCalculator.calculate`: validation first (its
`ValidationError` propagates), then the computation body. -/
noncomputable def calculate (p : ProcessParameters) : Except String CalculationResult :=
  match validate p with
  | .error e => .error e
  | .ok _ => .ok (calcResult p)

/-! Helper lemmas. -/

lemma validate_ok_iff (p : ProcessParameters) : validate p = Except.ok () ↔ Valid p := by
  unfold validate Valid
  split_ifs with h1 h2 h3 h4 h5 h6 <;>
    simp_all [not_lt, not_le]

lemma validate_error_iff (p : ProcessParameters) :
    (∃ msg, validate p = Except.error msg) ↔ ¬ Valid p := by
  constructor
  · rintro ⟨msg, hm⟩ hv
    rw [← validate_ok_iff] at hv
    rw [hv] at hm
    exact Except.noConfusion hm
  · intro hv
    cases h : validate p with
    | error e => exact ⟨e, rfl⟩
    | ok u => cases u; exact absurd ((validate_ok_iff p).mp h) hv

lemma calculate_ok_of_valid (p : ProcessParameters) (h : Valid p) :
    calculate p = Except.ok (calcResult p) := by
  unfold calculate
  rw [(validate_ok_iff p).mpr h]

lemma calculate_error_iff (p : ProcessParameters) :
    (∃ msg, calculate p = Except.error msg) ↔ ¬ Valid p := by
  unfold calculate
  constructor
  · rintro ⟨msg, hm⟩ hv
    rw [(validate_ok_iff p).mpr hv] at hm
    exact Except.noConfusion hm
  · intro hv
    obtain ⟨msg, hm⟩ := (validate_error_iff p).mpr hv
    exact ⟨msg, by rw [hm]⟩

lemma blowing_agent_data_hfc : blowing_agent_data "HFC" = some hfcAgent := rfl

lemma blowing_agent_data_hcfc : blowing_agent_data "HCFC" = some hcfcAgent := rfl

lemma blowing_agent_data_pentane :
    blowing_agent_data "Pentane" = some pentaneAgent := rfl

lemma blowing_agent_data_hfo : blowing_agent_data "HFO" = some hfoAgent := rfl

lemma blowing_agent_data_ecomate :
    blowing_agent_data "Ecomate" = some ecomateAgent := rfl

lemma blowing_agent_data_none (s : String)
    (h : s ∉ ["HFC", "HCFC", "Pentane", "HFO", "Ecomate"]) :
    blowing_agent_data s = none := by
  simp only [List.mem_cons, List.not_mem_nil, or_false, not_or] at h
  obtain ⟨h1, h2, h3, h4, h5⟩ := h
  simp [blowing_agent_data, h1, h2, h3, h4, h5]

lemma environmental_impact_eq (s : String) (a : BlowingAgent) (q : ℚ)
    (h : blowing_agent_data s = some a) :
    calculate_environmental_impact s q = some
      { co2_reduction := roundq2 (a.gwp * q / 1000)
        thermal_improvement :=
          roundq2 ((a.lambda - ecomateAgent.lambda) / a.lambda * 100)
        cost_savings := roundq2 ((a.cost - ecomateAgent.cost) * q)
        odp_reduction := a.odp * q } := by
  unfold calculate_environmental_impact
  rw [h]

lemma roundq2_eval (x : ℚ) (z : ℤ) (h1 : (z : ℚ) ≤ x * 100 + 1 / 2)
    (h2 : x * 100 + 1 / 2 < (z : ℚ) + 1) : roundq2 x = (z : ℚ) / 100 := by
  unfold roundq2
  rw [round_eq, Int.floor_eq_iff.mpr ⟨h1, by exact_mod_cast h2⟩]

/-! Claim theorems for the environmental-impact estimator and validation. -/

/-- C6: for every `agent_type` outside the five recognized keys and every
`annual_consumption`, `calculate_environmental_impact` fails (returns no
result) rather than defaulting to "HFC"; being a pure function, it does so
identically on every call with the same inputs. -/
theorem unknown_agent_fails (s : String)
    (h : s ∉ ["HFC", "HCFC", "Pentane", "HFO", "Ecomate"]) (q : ℚ) :
    calculate_environmental_impact s q = none := by
  unfold calculate_environmental_impact
  rw [blowing_agent_data_none s h]

theorem unknown_agent_fails_witness :
    "CO2" ∉ ["HFC", "HCFC", "Pentane", "HFO", "Ecomate"] ∧
      calculate_environmental_impact "CO2" 5000 = none :=
  ⟨by decide, unknown_agent_fails "CO2" (by decide) 5000⟩

/-- C7: the environmental scenario HFC / 5000 kg returns
co2_reduction = 7150.0, thermal_improvement = 13.64 and
cost_savings = 2750.0. -/
theorem hfc_5000_impact :
    calculate_environmental_impact "HFC" 5000 =
      some { co2_reduction := 7150, thermal_improvement := 13.64,
             cost_savings := 2750, odp_reduction := 0 } := by
  norm_num [calculate_environmental_impact, blowing_agent_data, hfcAgent,
    ecomateAgent, roundq2, round_eq]

/-- C8: for every recognized agent and consumption, co2_reduction,
thermal_improvement and cost_savings are the two-decimal roundings of their
formulas while odp_reduction is the exact product `odp · consumption`; the
HCFC / 0.1 kg instance shows odp_reduction (0.007) genuinely escapes the
two-decimal rounding applied to the other fields. -/
theorem impact_rounding_fields (s : String) (a : BlowingAgent) (q : ℚ)
    (h : blowing_agent_data s = some a) :
    calculate_environmental_impact s q = some
      { co2_reduction := roundq2 (a.gwp * q / 1000)
        thermal_improvement :=
          roundq2 ((a.lambda - ecomateAgent.lambda) / a.lambda * 100)
        cost_savings := roundq2 ((a.cost - ecomateAgent.cost) * q)
        odp_reduction := a.odp * q } ∧
    calculate_environmental_impact "HCFC" (1 / 10) = some
      { co2_reduction := 7 / 100, thermal_improvement := 1739 / 100,
        cost_savings := 3 / 100, odp_reduction := 7 / 1000 } ∧
    roundq2 ((7 : ℚ) / 1000) ≠ (7 : ℚ) / 1000 := by
  refine ⟨environmental_impact_eq s a q h, ?_, ?_⟩
  · rw [environmental_impact_eq "HCFC" hcfcAgent (1 / 10) blowing_agent_data_hcfc]
    norm_num [hcfcAgent, ecomateAgent, roundq2, round_eq]
  · norm_num [roundq2, round_eq]

theorem impact_rounding_fields_witness :
    blowing_agent_data "Pentane" = some pentaneAgent ∧
      calculate_environmental_impact "Pentane" 2 = some
        { co2_reduction := roundq2 (pentaneAgent.gwp * 2 / 1000)
          thermal_improvement :=
            roundq2 ((pentaneAgent.lambda - ecomateAgent.lambda) /
              pentaneAgent.lambda * 100)
          cost_savings := roundq2 ((pentaneAgent.cost - ecomateAgent.cost) * 2)
          odp_reduction := pentaneAgent.odp * 2 } :=
  ⟨rfl, (impact_rounding_fields "Pentane" pentaneAgent 2 rfl).1⟩

/-- C10: `calculate_environmental_impact` never validates
`annual_consumption`: every recognized agent returns a result for every
consumption, including zero and negative values, where the formulas simply
propagate the sign (HFC at −1000 kg yields negative co2_reduction and
cost_savings). -/
theorem impact_no_consumption_validation (s : String) (a : BlowingAgent) (q : ℚ)
    (h : blowing_agent_data s = some a) :
    (∃ r, calculate_environmental_impact s q = some r) ∧
    calculate_environmental_impact "HFC" 0 = some
      { co2_reduction := 0, thermal_improvement := 13.64,
        cost_savings := 0, odp_reduction := 0 } ∧
    calculate_environmental_impact "HFC" (-1000) = some
      { co2_reduction := -1430, thermal_improvement := 13.64,
        cost_savings := -550, odp_reduction := 0 } := by
  refine ⟨⟨_, environmental_impact_eq s a q h⟩, ?_, ?_⟩
  · rw [environmental_impact_eq "HFC" hfcAgent 0 blowing_agent_data_hfc]
    norm_num [hfcAgent, ecomateAgent, roundq2, round_eq]
  · rw [environmental_impact_eq "HFC" hfcAgent (-1000) blowing_agent_data_hfc]
    norm_num [hfcAgent, ecomateAgent, roundq2, round_eq]

theorem impact_no_consumption_validation_witness :
    blowing_agent_data "HFO" = some hfoAgent ∧
      ∃ r, calculate_environmental_impact "HFO" (-5) = some r :=
  ⟨rfl, (impact_no_consumption_validation "HFO" hfoAgent (-5) rfl).1⟩

/-- C2 counterexample: the rejection examples temperature=4 and
temperature=41 yield the same error message, so the seven listed examples do
not produce pairwise distinct messages. -/
theorem temperature_examples_same_message :
    validate ⟨100, 20, 4, 1 / 1000, 350, 28 / 25⟩ =
        Except.error "Temperature must be between 5°C and 40°C" ∧
      validate ⟨100, 20, 41, 1 / 1000, 350, 28 / 25⟩ =
        Except.error "Temperature must be between 5°C and 40°C" ∧
      validate ⟨100, 20, 4, 1 / 1000, 350, 28 / 25⟩ =
        validate ⟨100, 20, 41, 1 / 1000, 350, 28 / 25⟩ := by
  refine ⟨?_, ?_, ?_⟩ <;> norm_num [validate]

/-- C2 (amended): `calculate` fails with a field-specific `ValidationError`
message iff some constraint is violated, stopping at the first violated
constraint in source order and producing no derived quantities; each
rejection example yields its field's message, the messages of the six
fields being pairwise distinct (temperature=4 and temperature=41 share the
single temperature-range message). -/
theorem validation_rejects_invalid (p : ProcessParameters) :
    ((∃ msg, calculate p = Except.error msg) ↔ ¬ Valid p) ∧
    (Valid p → calculate p = Except.ok (calcResult p)) ∧
    (p.pipe_length < 50 →
      validate p = Except.error "Pipe length must be at least 50mm") ∧
    (50 ≤ p.pipe_length → p.pipe_thickness ≤ 0 →
      validate p = Except.error "Pipe thickness must be positive") ∧
    (50 ≤ p.pipe_length → 0 < p.pipe_thickness →
      ¬ (5 ≤ p.temperature ∧ p.temperature ≤ 40) →
      validate p = Except.error "Temperature must be between 5°C and 40°C") ∧
    (50 ≤ p.pipe_length → 0 < p.pipe_thickness →
      (5 ≤ p.temperature ∧ p.temperature ≤ 40) → p.flow_rate ≤ 0 →
      validate p = Except.error "Flow rate must be positive") ∧
    (50 ≤ p.pipe_length → 0 < p.pipe_thickness →
      (5 ≤ p.temperature ∧ p.temperature ≤ 40) → 0 < p.flow_rate →
      p.viscosity ≤ 0 → validate p = Except.error "Viscosity must be positive") ∧
    (50 ≤ p.pipe_length → 0 < p.pipe_thickness →
      (5 ≤ p.temperature ∧ p.temperature ≤ 40) → 0 < p.flow_rate →
      0 < p.viscosity → p.density ≤ 0 →
      validate p = Except.error "Density must be positive") ∧
    validate ⟨49, 20, 25, 1 / 1000, 350, 28 / 25⟩ =
      Except.error "Pipe length must be at least 50mm" ∧
    validate ⟨100, 0, 25, 1 / 1000, 350, 28 / 25⟩ =
      Except.error "Pipe thickness must be positive" ∧
    validate ⟨100, 20, 4, 1 / 1000, 350, 28 / 25⟩ =
      Except.error "Temperature must be between 5°C and 40°C" ∧
    validate ⟨100, 20, 41, 1 / 1000, 350, 28 / 25⟩ =
      Except.error "Temperature must be between 5°C and 40°C" ∧
    validate ⟨100, 20, 25, 0, 350, 28 / 25⟩ =
      Except.error "Flow rate must be positive" ∧
    validate ⟨100, 20, 25, 1 / 1000, 0, 28 / 25⟩ =
      Except.error "Viscosity must be positive" ∧
    validate ⟨100, 20, 25, 1 / 1000, 350, 0⟩ =
      Except.error "Density must be positive" ∧
    List.Pairwise (· ≠ ·)
      ["Pipe length must be at least 50mm", "Pipe thickness must be positive",
       "Temperature must be between 5°C and 40°C", "Flow rate must be positive",
       "Viscosity must be positive", "Density must be positive"] := by
  refine ⟨calculate_error_iff p, calculate_ok_of_valid p, ?_, ?_, ?_, ?_, ?_, ?_,
    ?_, ?_, ?_, ?_, ?_, ?_, ?_, ?_⟩
  · intro h1
    unfold validate
    rw [if_pos h1]
  · intro h1 h2
    unfold validate
    rw [if_neg (not_lt.mpr h1), if_pos h2]
  · intro h1 h2 h3
    unfold validate
    rw [if_neg (not_lt.mpr h1), if_neg (not_le.mpr h2), if_pos h3]
  · intro h1 h2 h3 h4
    unfold validate
    rw [if_neg (not_lt.mpr h1), if_neg (not_le.mpr h2),
      if_neg (not_not_intro h3), if_pos h4]
  · intro h1 h2 h3 h4 h5
    unfold validate
    rw [if_neg (not_lt.mpr h1), if_neg (not_le.mpr h2),
      if_neg (not_not_intro h3), if_neg (not_le.mpr h4), if_pos h5]
  · intro h1 h2 h3 h4 h5 h6
    unfold validate
    rw [if_neg (not_lt.mpr h1), if_neg (not_le.mpr h2),
      if_neg (not_not_intro h3), if_neg (not_le.mpr h4),
      if_neg (not_le.mpr h5), if_pos h6]
  · norm_num [validate]
  · norm_num [validate]
  · norm_num [validate]
  · norm_num [validate]
  · norm_num [validate]
  · norm_num [validate]
  · norm_num [validate]
  · decide

theorem validation_rejects_invalid_witness :
    ((⟨49, 0, 25, 0, 350, 28 / 25⟩ : ProcessParameters).pipe_length < 50) ∧
      validate ⟨49, 0, 25, 0, 350, 28 / 25⟩ =
        Except.error "Pipe length must be at least 50mm" :=
  ⟨show (49 : ℚ) < 50 by norm_num,
    (validation_rejects_invalid ⟨49, 0, 25, 0, 350, 28 / 25⟩).2.2.1
      (show (49 : ℚ) < 50 by norm_num)⟩

/-! Helper lemmas for the real-valued pipeline. -/

lemma round2_mono {x y : ℝ} (h : x ≤ y) : round2 x ≤ round2 y := by
  unfold round2
  have hr : round (x * 100) ≤ round (y * 100) := by
    rw [round_eq, round_eq]
    exact Int.floor_le_floor (by linarith)
  have hc : ((round (x * 100) : ℤ) : ℝ) ≤ ((round (y * 100) : ℤ) : ℝ) :=
    Int.cast_le.mpr hr
  linarith

lemma round2_zero : round2 0 = 0 := by
  unfold round2
  norm_num

lemma radius_m_pos (p : ProcessParameters) (h : Valid p) : 0 < radius_m p := by
  unfold radius_m
  have hq : (0 : ℝ) < (p.pipe_thickness : ℝ) := by exact_mod_cast h.2.1
  positivity

lemma length_m_pos (p : ProcessParameters) (h : Valid p) : 0 < length_m p := by
  unfold length_m
  have hq : (0 : ℝ) < (p.pipe_length : ℝ) := by
    have : (0 : ℚ) < p.pipe_length := lt_of_lt_of_le (by norm_num) h.1
    exact_mod_cast this
  positivity

lemma flow_rate_cast_pos (p : ProcessParameters) (h : Valid p) :
    (0 : ℝ) < (p.flow_rate : ℝ) := by exact_mod_cast h.2.2.2.1

lemma shear_rate_of_pos (p : ProcessParameters) (h : Valid p) :
    0 < shear_rate_of p := by
  unfold shear_rate_of calculate_shear_rate
  exact div_pos (mul_pos (by norm_num) (flow_rate_cast_pos p h))
    (mul_pos Real.pi_pos (pow_pos (radius_m_pos p h) 3))

lemma apparent_viscosity_of_pos (p : ProcessParameters) (h : Valid p) :
    0 < apparent_viscosity_of p := by
  unfold apparent_viscosity_of calculate_apparent_viscosity
    calculate_temperature_factor
  have hv : (0 : ℝ) < (p.viscosity : ℝ) := by exact_mod_cast h.2.2.2.2.1
  exact mul_pos (mul_pos (mul_pos hv (by norm_num)) (Real.exp_pos _))
    (Real.rpow_pos_of_pos (shear_rate_of_pos p h) _)

lemma pressure_drop_kpa_of_pos (p : ProcessParameters) (h : Valid p) :
    0 < pressure_drop_kpa_of p := by
  unfold pressure_drop_kpa_of calculate_pressure_drop power_law_index
  refine div_pos (mul_pos (div_pos ?_ ?_) (by norm_num)) (by norm_num)
  · exact mul_pos (mul_pos (mul_pos (by norm_num) (apparent_viscosity_of_pos p h))
      (length_m_pos p h)) (flow_rate_cast_pos p h)
  · exact mul_pos Real.pi_pos (pow_pos (radius_m_pos p h) 4)

lemma generate_pressure_profile_length (total_pressure length : ℝ) (n : ℕ) :
    (generate_pressure_profile total_pressure n length).length = n := by
  unfold generate_pressure_profile
  rw [List.length_map, List.length_range]

lemma generate_pressure_profile_get (total_pressure length : ℝ) {n i : ℕ}
    (h : i < n) :
    (generate_pressure_profile total_pressure n length)[i]? =
      some (round1 (((i : ℝ) * length) / ((n : ℝ) - 1)),
        round2 (total_pressure *
          (1 - (((i : ℝ) * length) / ((n : ℝ) - 1)) / length))) := by
  unfold generate_pressure_profile
  rw [List.getElem?_map, List.getElem?_range h]
  rfl

/-! Claim theorems for the fluid-dynamics pipeline. -/

/-- C1: for every valid `ProcessParameters`, the result's `flow_regime` is
"turbulent" iff the unrounded Reynolds number is ≥ 2300 and "laminar"
otherwise, while the `reynolds_number` field carries the two-decimal
rounding of that unrounded value. -/
theorem flow_regime_turbulent_iff (p : ProcessParameters) (h : Valid p) :
    ((calcResult p).flow_regime = "turbulent" ↔ 2300 ≤ reynolds_of p) ∧
    ((calcResult p).flow_regime = "laminar" ↔ reynolds_of p < 2300) ∧
    (calcResult p).reynolds_number = round2 (reynolds_of p) := by
  have hfr : (calcResult p).flow_regime = flow_regime_of (reynolds_of p) := rfl
  by_cases hre : reynolds_of p < 2300
  · have hlam : (calcResult p).flow_regime = "laminar" := by
      rw [hfr]; unfold flow_regime_of; rw [if_pos hre]
    refine ⟨?_, ?_, rfl⟩
    · rw [hlam]
      exact iff_of_false (by decide) (not_le.mpr hre)
    · rw [hlam]
      exact iff_of_true rfl hre
  · have hturb : (calcResult p).flow_regime = "turbulent" := by
      rw [hfr]; unfold flow_regime_of; rw [if_neg hre]
    refine ⟨?_, ?_, rfl⟩
    · rw [hturb]
      exact iff_of_true rfl (not_lt.mp hre)
    · rw [hturb]
      exact iff_of_false (by decide) hre

theorem flow_regime_turbulent_iff_witness :
    Valid ⟨100, 20, 25, 1 / 1000, 350, 28 / 25⟩ ∧
      ((calcResult ⟨100, 20, 25, 1 / 1000, 350, 28 / 25⟩).flow_regime = "turbulent" ↔
        2300 ≤ reynolds_of ⟨100, 20, 25, 1 / 1000, 350, 28 / 25⟩) :=
  ⟨by unfold Valid; norm_num,
    (flow_regime_turbulent_iff ⟨100, 20, 25, 1 / 1000, 350, 28 / 25⟩
      (by unfold Valid; norm_num)).1⟩

/-- C3: for every valid `ProcessParameters`, the pressure profile has
exactly 20 points and point i carries distance `i·pipe_length/19` rounded to
1 decimal and pressure `ΔP_kPa·(1 − (i·pipe_length/19)/pipe_length)` rounded
to 2 decimals, running from the inlet (i = 0, distance 0) to the outlet
(i = 19, distance = pipe_length). -/
theorem pressure_profile_formula (p : ProcessParameters) (h : Valid p) :
    (calcResult p).pressure_profile.length = 20 ∧
    ∀ i : ℕ, i < 20 → (calcResult p).pressure_profile[i]? =
      some (round1 ((i : ℝ) * (p.pipe_length : ℝ) / 19),
        round2 (pressure_drop_kpa_of p *
          (1 - ((i : ℝ) * (p.pipe_length : ℝ) / 19) / (p.pipe_length : ℝ)))) := by
  have hprof : (calcResult p).pressure_profile =
      generate_pressure_profile (pressure_drop_kpa_of p) 20 (p.pipe_length : ℝ) := rfl
  constructor
  · rw [hprof, generate_pressure_profile_length]
  · intro i hi
    rw [hprof, generate_pressure_profile_get _ _ hi]
    norm_num

theorem pressure_profile_formula_witness :
    Valid ⟨100, 20, 25, 1 / 1000, 350, 28 / 25⟩ ∧
      (calcResult ⟨100, 20, 25, 1 / 1000, 350, 28 / 25⟩).pressure_profile.length = 20 :=
  ⟨by unfold Valid; norm_num,
    (pressure_profile_formula ⟨100, 20, 25, 1 / 1000, 350, 28 / 25⟩
      (by unfold Valid; norm_num)).1⟩

/-- C4: for every valid `ProcessParameters`, profile pressures are
monotonically non-increasing along the sequence, the first point's pressure
equals `required_pressure` exactly and the last point's pressure equals 0. -/
theorem pressure_profile_monotone (p : ProcessParameters) (h : Valid p) :
    (∀ i j : ℕ, i ≤ j → ∀ di pi dj pj : ℝ,
      (calcResult p).pressure_profile[i]? = some (di, pi) →
      (calcResult p).pressure_profile[j]? = some (dj, pj) → pj ≤ pi) ∧
    (∃ d, (calcResult p).pressure_profile[0]? =
      some (d, (calcResult p).required_pressure)) ∧
    (∃ d, (calcResult p).pressure_profile[19]? = some (d, 0)) := by
  have hprof : (calcResult p).pressure_profile =
      generate_pressure_profile (pressure_drop_kpa_of p) 20 (p.pipe_length : ℝ) := rfl
  have hL : (0 : ℝ) < (p.pipe_length : ℝ) := by
    have : (0 : ℚ) < p.pipe_length := lt_of_lt_of_le (by norm_num) h.1
    exact_mod_cast this
  have hLne : (p.pipe_length : ℝ) ≠ 0 := ne_of_gt hL
  have hT := pressure_drop_kpa_of_pos p h
  have key : ∀ k : ℕ, ((k : ℝ) * (p.pipe_length : ℝ) / ((20 : ℝ) - 1)) /
      (p.pipe_length : ℝ) = (k : ℝ) / 19 := by
    intro k
    field_simp
    ring
  refine ⟨?_, ?_, ?_⟩
  · intro i j hij di pi dj pj hi hj
    by_cases hj20 : j < 20
    · have hi20 : i < 20 := lt_of_le_of_lt hij hj20
      rw [hprof, generate_pressure_profile_get _ _ hi20] at hi
      rw [hprof, generate_pressure_profile_get _ _ hj20] at hj
      have hpi : round2 (pressure_drop_kpa_of p *
          (1 - ((i : ℝ) * (p.pipe_length : ℝ) / ((20 : ℝ) - 1)) /
            (p.pipe_length : ℝ))) = pi :=
        (Prod.ext_iff.mp (Option.some.inj hi)).2
      have hpj : round2 (pressure_drop_kpa_of p *
          (1 - ((j : ℝ) * (p.pipe_length : ℝ) / ((20 : ℝ) - 1)) /
            (p.pipe_length : ℝ))) = pj :=
        (Prod.ext_iff.mp (Option.some.inj hj)).2
      rw [← hpi, ← hpj, key i, key j]
      apply round2_mono
      apply mul_le_mul_of_nonneg_left _ hT.le
      have : (i : ℝ) / 19 ≤ (j : ℝ) / 19 :=
        (div_le_div_iff_of_pos_right (by norm_num)).mpr (Nat.cast_le.mpr hij)
      linarith
    · rw [hprof, List.getElem?_eq_none
        (by rw [generate_pressure_profile_length]; omega)] at hj
      exact Option.noConfusion hj
  · refine ⟨round1 (((0 : ℕ) : ℝ) * (p.pipe_length : ℝ) / ((20 : ℝ) - 1)), ?_⟩
    rw [hprof, generate_pressure_profile_get _ _ (by norm_num : (0 : ℕ) < 20)]
    have h0 : pressure_drop_kpa_of p *
        (1 - (((0 : ℕ) : ℝ) * (p.pipe_length : ℝ) / (((20 : ℕ) : ℝ) - 1)) /
          (p.pipe_length : ℝ)) = pressure_drop_kpa_of p := by
      norm_num
    rw [h0]
    rfl
  · refine ⟨round1 (((19 : ℕ) : ℝ) * (p.pipe_length : ℝ) / ((20 : ℝ) - 1)), ?_⟩
    rw [hprof, generate_pressure_profile_get _ _ (by norm_num : (19 : ℕ) < 20)]
    have h19 : pressure_drop_kpa_of p *
        (1 - (((19 : ℕ) : ℝ) * (p.pipe_length : ℝ) / (((20 : ℕ) : ℝ) - 1)) /
          (p.pipe_length : ℝ)) = 0 := by
      have : (((20 : ℕ) : ℝ) - 1) = ((20 : ℝ) - 1) := by norm_num
      rw [this, key 19]
      norm_num
    rw [h19, round2_zero]
    norm_num

theorem pressure_profile_monotone_witness :
    Valid ⟨100, 20, 25, 1 / 1000, 350, 28 / 25⟩ ∧
      ∃ d, (calcResult ⟨100, 20, 25, 1 / 1000, 350, 28 / 25⟩).pressure_profile[0]? =
        some (d, (calcResult ⟨100, 20, 25, 1 / 1000, 350, 28 / 25⟩).required_pressure) :=
  ⟨by unfold Valid; norm_num,
    (pressure_profile_monotone ⟨100, 20, 25, 1 / 1000, 350, 28 / 25⟩
      (by unfold Valid; norm_num)).2.1⟩

/-- C5: the temperature factor equals
`exp((50000/8.314)·(1/(t+273.15) − 1/(25+273.15)))`; on the admissible range
it is 1 at the 25 °C reference, strictly below 1 above it and strictly above
1 below it, hence it strictly decreases the apparent viscosity above the
reference and strictly increases it below. -/
theorem temperature_factor_props (t : ℝ) (h5 : 5 ≤ t) (h40 : t ≤ 40) :
    calculate_temperature_factor t =
      Real.exp ((50000 / 8.314) * (1 / (t + 273.15) - 1 / (25 + 273.15))) ∧
    (t = 25 → calculate_temperature_factor t = 1) ∧
    (25 < t → calculate_temperature_factor t < 1) ∧
    (t < 25 → 1 < calculate_temperature_factor t) ∧
    (∀ v γ : ℝ, 0 < v → 0 < γ → 25 < t →
      calculate_apparent_viscosity v t γ < calculate_apparent_viscosity v 25 γ) ∧
    (∀ v γ : ℝ, 0 < v → 0 < γ → t < 25 →
      calculate_apparent_viscosity v 25 γ < calculate_apparent_viscosity v t γ) := by
  have harg : ∀ s : ℝ, calculate_temperature_factor s =
      Real.exp ((50000 / 8.314) * (1 / (s + 273.15) - 1 / (25 + 273.15))) := by
    intro s
    unfold calculate_temperature_factor convert_to_kelvin activation_energy
      gas_constant
    norm_num
  have hTref : (0 : ℝ) < 25 + 273.15 := by norm_num
  have hTk : (0 : ℝ) < t + 273.15 := by linarith
  have hc : (0 : ℝ) < 50000 / 8.314 := by norm_num
  have hat25 : calculate_temperature_factor 25 = 1 := by
    rw [harg 25]
    norm_num
  have hlt1 : 25 < t → calculate_temperature_factor t < 1 := by
    intro hlt
    rw [harg t]
    apply Real.exp_lt_one_iff.mpr
    have h1 : 1 / (t + 273.15) < 1 / (25 + 273.15) :=
      one_div_lt_one_div_of_lt hTref (by linarith)
    exact mul_neg_of_pos_of_neg hc (by linarith)
  have hgt1 : t < 25 → 1 < calculate_temperature_factor t := by
    intro hlt
    rw [harg t]
    apply Real.one_lt_exp_iff.mpr
    have h1 : 1 / (25 + 273.15) < 1 / (t + 273.15) :=
      one_div_lt_one_div_of_lt hTk (by linarith)
    exact mul_pos hc (by linarith)
  refine ⟨harg t, ?_, hlt1, hgt1, ?_, ?_⟩
  · intro ht
    rw [ht]
    exact hat25
  · intro v γ hv hγ hlt
    unfold calculate_apparent_viscosity
    apply mul_lt_mul_of_pos_right _ (Real.rpow_pos_of_pos hγ _)
    apply mul_lt_mul_of_pos_left _ (by positivity : (0 : ℝ) < v * 0.001)
    rw [hat25]
    exact hlt1 hlt
  · intro v γ hv hγ hlt
    unfold calculate_apparent_viscosity
    apply mul_lt_mul_of_pos_right _ (Real.rpow_pos_of_pos hγ _)
    apply mul_lt_mul_of_pos_left _ (by positivity : (0 : ℝ) < v * 0.001)
    rw [hat25]
    exact hgt1 hlt

theorem temperature_factor_props_witness :
    (5 : ℝ) ≤ 30 ∧ (30 : ℝ) ≤ 40 ∧
      calculate_temperature_factor 30 =
        Real.exp ((50000 / 8.314) * (1 / (30 + 273.15) - 1 / (25 + 273.15))) :=
  ⟨by norm_num, by norm_num,
    (temperature_factor_props 30 (by norm_num) (by norm_num)).1⟩

/-- C9: at an unrounded Reynolds number of exactly 2300 the regime
conditional (`Re < 2300` strict) yields "turbulent" while the warning
conditional (`Re > 2300` strict) does not fire, so `calculate` would report
a turbulent regime with no turbulence warning. -/
theorem reynolds_boundary_2300 (re s v : ℝ) (h : re = 2300) :
    flow_regime_of re = "turbulent" ∧
    "Flow is turbulent (Re > 2300) - consider reducing flow rate" ∉
      generate_warnings re s v ∧
    ∀ p : ProcessParameters, reynolds_of p = 2300 →
      (calcResult p).flow_regime = "turbulent" ∧
      "Flow is turbulent (Re > 2300) - consider reducing flow rate" ∉
        (calcResult p).warnings := by
  have hreg : flow_regime_of (2300 : ℝ) = "turbulent" := by
    unfold flow_regime_of
    rw [if_neg (lt_irrefl _)]
  have hwarn : ∀ s v : ℝ,
      "Flow is turbulent (Re > 2300) - consider reducing flow rate" ∉
        generate_warnings 2300 s v := by
    intro s v
    unfold generate_warnings
    rw [if_neg (lt_irrefl (2300 : ℝ))]
    intro hmem
    rw [List.nil_append, List.mem_append] at hmem
    rcases hmem with hmem | hmem <;> split_ifs at hmem <;>
      simp only [List.mem_singleton, List.not_mem_nil] at hmem <;>
      revert hmem <;> decide
  subst h
  refine ⟨hreg, hwarn s v, ?_⟩
  intro p hre
  constructor
  · show flow_regime_of (reynolds_of p) = _
    rw [hre]
    exact hreg
  · show _ ∉ generate_warnings (reynolds_of p) (shear_rate_of p)
      (apparent_viscosity_of p)
    rw [hre]
    exact hwarn _ _

theorem reynolds_boundary_2300_witness :
    (2300 : ℝ) = 2300 ∧ flow_regime_of 2300 = "turbulent" ∧
      "Flow is turbulent (Re > 2300) - consider reducing flow rate" ∉
        generate_warnings 2300 0 0 :=
  ⟨rfl, (reynolds_boundary_2300 2300 0 0 rfl).1,
    (reynolds_boundary_2300 2300 0 0 rfl).2.1⟩

end PuCalc
